import Mathlib

/-!
Verification development for the BenBox RAG front-end (`app.py`,
`src/server/minio_utils.py`, `src/server/snowflake.py`).

The Python sources are shallowly embedded: strings are Lean `String`s
(Python string methods are re-implemented character-exactly for the ASCII
fragment used by the app), parsed JSON documents are the inductive `Json`
below, raw MCP transport results are `PyVal`/`RawOutcome`, and the
Streamlit-level control flow around the Navigator chat is a pure step
function from inputs (selection, chat input, remote response, history) to
an outcome record (tool call issued, new history, rendered display).
Uncaught Python exceptions are modelled as `Option.none` results.
-/

namespace BenBox

/-! ## JSON values

Parsed JSON documents, as produced by Python's `json.loads`.  Numbers are
restricted to integers: no claim involves fractional numbers, and every
JSON document appearing in the sources carries strings, arrays and
objects only. -/

inductive Json where
  | null : Json
  | bool (b : Bool) : Json
  | num (n : Int) : Json
  | str (s : String) : Json
  | arr (xs : List Json) : Json
  | obj (kvs : List (String × Json)) : Json

/-- Lookup of a key in an association list, as Python dict lookup on the
dicts built below (keys are unique in every dict the sources build). -/
def lookupStr : List (String × Json) → String → Option Json
  | [], _ => Option.none
  | (k, v) :: rest, key => if k = key then some v else lookupStr rest key

/-- Python `d.get(key)` on a parsed JSON value: `none` when the value is
not a dict or the key is missing. -/
def jsonGet : Json → String → Option Json
  | Json.obj kvs, key => lookupStr kvs key
  | _, _ => Option.none

/-- Python `d.get(key, default)`. -/
def jsonGetD (j : Json) (key : String) (d : Json) : Json :=
  (jsonGet j key).getD d

/-- Whether a parsed JSON value is a mapping containing a `status` key. -/
def hasStatusKey : Json → Bool
  | Json.obj kvs => kvs.any (fun kv => kv.1 = "status")
  | _ => false

/-- Python `resp.get("status") == "success"`: `True` exactly when the
value is a dict whose `status` entry is the string `"success"`. -/
def isStatusSuccess (j : Json) : Bool :=
  match jsonGet j "status" with
  | some (Json.str s) => s = "success"
  | _ => false

/-! ## Python string primitives -/

/-- Single-quote character, used by Python `repr` of strings. -/
def sqChar : Char := Char.ofNat 39

/-- Opening curly brace character. -/
def lbChar : Char := Char.ofNat 123

/-- Closing curly brace character. -/
def rbChar : Char := Char.ofNat 125

/-- Double-quote character. -/
def dqChar : Char := Char.ofNat 34

/-- Backslash character. -/
def bsChar : Char := Char.ofNat 92

/-- List-level `startswith`: `listStartsWith p s` is true when `p` is a
prefix of `s`. -/
def listStartsWith : List Char → List Char → Bool
  | [], _ => true
  | _ :: _, [] => false
  | p :: ps, c :: cs => p == c && listStartsWith ps cs

/-- Python `s.startswith(p)`. -/
def pyStartsWith (s p : String) : Bool :=
  listStartsWith p.toList s.toList

/-- Python `str.replace(old, new)` on character lists, driven by fuel so
that evaluation is definitional: scans left to right, replacing each
non-overlapping occurrence of `old`.  All call sites use a non-empty
`old`; the `old = []` branch keeps the function total. -/
def pyReplaceF : Nat → List Char → List Char → List Char → List Char
  | _, _, _, [] => []
  | 0, _, _, s => s
  | f + 1, old, new, c :: cs =>
    if old ≠ [] ∧ listStartsWith old (c :: cs) = true then
      new ++ pyReplaceF f old new (List.drop (old.length - 1) cs)
    else
      c :: pyReplaceF f old new cs

/-- Python `s.replace(old, new)`. -/
def pyReplace (s old new : String) : String :=
  String.mk (pyReplaceF s.length old.toList new.toList s.toList)

/-- Python whitespace, as stripped by `str.lstrip()`. -/
def pyIsSpace (c : Char) : Bool :=
  c == ' ' || c == '\t' || c == '\n' || c == '\r' ||
  c == Char.ofNat 11 || c == Char.ofNat 12

/-- Python `s.lstrip()`. -/
def pyLstrip (s : String) : String :=
  String.mk (s.toList.dropWhile pyIsSpace)

/-- Python `s.upper()` (the app only feeds ASCII table/bucket names). -/
def pyUpper (s : String) : String :=
  String.mk (s.toList.map Char.toUpper)

/-- Python `s.lower()`. -/
def pyLower (s : String) : String :=
  String.mk (s.toList.map Char.toLower)

/-- Python `s.removeprefix(p)`: drops `p` when it is a prefix, otherwise
returns `s` unchanged. -/
def pyRemovePrefixStr (s p : String) : String :=
  if pyStartsWith s p then String.mk (s.toList.drop p.toList.length) else s

/-- Helper for `os.path.basename`: the suffix after the last slash. -/
def basenameAux : List Char → List Char → List Char
  | acc, [] => acc
  | acc, c :: cs => if c == '/' then basenameAux [] cs else basenameAux (acc ++ [c]) cs

/-- Python `os.path.basename(p)` for POSIX paths. -/
def pyBasename (p : String) : String :=
  String.mk (basenameAux [] p.toList)

/-! ## A JSON parser modelling `json.loads`

Fuel-driven recursive descent over the character list; the fuel passed by
`jsonParse` is generous enough for every input (each recursive step
consumes input or unfolds one grammar production).  Numbers are
restricted to (optionally signed) integers, see `Json`. -/

/-- Skip JSON whitespace. -/
def skipWs : List Char → List Char
  | c :: cs =>
    if c == ' ' || c == '\t' || c == '\n' || c == '\r' then skipWs cs else c :: cs
  | [] => []

/-- Parse the body of a JSON string after the opening quote, handling the
common escapes. -/
def parseStrBody : Nat → List Char → Option (String × List Char)
  | 0, _ => Option.none
  | _ + 1, [] => Option.none
  | f + 1, c :: cs =>
    if c == dqChar then some ("", cs)
    else if c == bsChar then
      match cs with
      | [] => Option.none
      | e :: cs2 =>
        let ec : Char :=
          if e == 'n' then '\n'
          else if e == 't' then '\t'
          else if e == 'r' then '\r'
          else e
        match parseStrBody f cs2 with
        | some (s, rest) => some (String.singleton ec ++ s, rest)
        | Option.none => Option.none
    else
      match parseStrBody f cs with
      | some (s, rest) => some (String.singleton c ++ s, rest)
      | Option.none => Option.none

/-- Digits of a decimal literal. -/
def takeDigits (cs : List Char) : List Char × List Char :=
  (cs.takeWhile Char.isDigit, cs.dropWhile Char.isDigit)

/-- Value of a list of decimal digits. -/
def digitsVal (ds : List Char) : Nat :=
  ds.foldl (fun acc c => 10 * acc + (c.toNat - 48)) 0

/-- Parse an integer JSON number. -/
def parseNum (cs : List Char) : Option (Json × List Char) :=
  let (neg, cs1) :=
    match cs with
    | c :: rest => if c == '-' then (true, rest) else (false, cs)
    | [] => (false, cs)
  let (ds, rest) := takeDigits cs1
  if ds.isEmpty then Option.none
  else
    let v : Int := Int.ofNat (digitsVal ds)
    some (Json.num (if neg then -v else v), rest)

mutual

/-- Parse one JSON value. -/
def parseJ : Nat → List Char → Option (Json × List Char)
  | 0, _ => Option.none
  | f + 1, cs =>
    match skipWs cs with
    | [] => Option.none
    | c :: rest =>
      if c == dqChar then
        match parseStrBody (f + 1) rest with
        | some (s, r) => some (Json.str s, r)
        | Option.none => Option.none
      else if c == '[' then
        match skipWs rest with
        | c2 :: r2 =>
          if c2 == ']' then some (Json.arr [], r2)
          else
            match parseArrItems f (c2 :: r2) with
            | some (xs, r3) => some (Json.arr xs, r3)
            | Option.none => Option.none
        | [] => Option.none
      else if c == lbChar then
        match skipWs rest with
        | c2 :: r2 =>
          if c2 == rbChar then some (Json.obj [], r2)
          else
            match parseObjItems f (c2 :: r2) with
            | some (kvs, r3) => some (Json.obj kvs, r3)
            | Option.none => Option.none
        | [] => Option.none
      else if listStartsWith "true".toList (c :: rest) then
        some (Json.bool true, List.drop 4 (c :: rest))
      else if listStartsWith "false".toList (c :: rest) then
        some (Json.bool false, List.drop 5 (c :: rest))
      else if listStartsWith "null".toList (c :: rest) then
        some (Json.null, List.drop 4 (c :: rest))
      else if c == '-' || c.isDigit then
        parseNum (c :: rest)
      else Option.none

/-- Parse the comma-separated items of a non-empty JSON array, up to and
including the closing bracket. -/
def parseArrItems : Nat → List Char → Option (List Json × List Char)
  | 0, _ => Option.none
  | f + 1, cs =>
    match parseJ f cs with
    | some (v, rest) =>
      match skipWs rest with
      | c :: r2 =>
        if c == ',' then
          match parseArrItems f r2 with
          | some (xs, r3) => some (v :: xs, r3)
          | Option.none => Option.none
        else if c == ']' then some ([v], r2)
        else Option.none
      | [] => Option.none
    | Option.none => Option.none

/-- Parse the members of a non-empty JSON object, up to and including the
closing brace. -/
def parseObjItems : Nat → List Char → Option (List (String × Json) × List Char)
  | 0, _ => Option.none
  | f + 1, cs =>
    match skipWs cs with
    | c :: rest =>
      if c == dqChar then
        match parseStrBody (f + 1) rest with
        | some (k, r1) =>
          match skipWs r1 with
          | c2 :: r2 =>
            if c2 == ':' then
              match parseJ f r2 with
              | some (v, r3) =>
                match skipWs r3 with
                | c3 :: r4 =>
                  if c3 == ',' then
                    match parseObjItems f r4 with
                    | some (kvs, r5) => some ((k, v) :: kvs, r5)
                    | Option.none => Option.none
                  else if c3 == rbChar then some ([(k, v)], r4)
                  else Option.none
                | [] => Option.none
              | Option.none => Option.none
            else Option.none
          | [] => Option.none
        | Option.none => Option.none
      else Option.none
    | [] => Option.none

end

/-- Python `json.loads`: parse the whole document, requiring only trailing
whitespace after the value; `none` models a raised `JSONDecodeError`. -/
def jsonParse (s : String) : Option Json :=
  match parseJ (4 * s.length + 8) s.toList with
  | some (v, rest) => if (skipWs rest).isEmpty then some v else Option.none
  | Option.none => Option.none

/-! ## Raw MCP transport values

`call_snowflake_mcp_tool` receives `execution.content` from the MCP
session: either a list/tuple of content items (a `TextContent` exposes a
`.text` attribute), or some other Python value.  `PyVal` covers the
shapes reachable there; `other` carries the `str()` rendering of an
object outside the enumerated shapes. -/

inductive PyVal where
  | str (s : String) : PyVal
  | int (n : Int) : PyVal
  | noneVal : PyVal
  | list (xs : List PyVal) : PyVal
  | textContent (text : String) : PyVal
  | other (reprStr : String) : PyVal

mutual

/-- Python `repr` of a `PyVal` (the rendering used for elements inside a
list); string escaping inside `repr` is not modelled. -/
def pyRepr : PyVal → String
  | PyVal.str s => String.singleton sqChar ++ s ++ String.singleton sqChar
  | PyVal.int n => toString n
  | PyVal.noneVal => "None"
  | PyVal.list xs => "[" ++ pyReprList xs ++ "]"
  | PyVal.textContent t =>
    "TextContent(text=" ++ String.singleton sqChar ++ t ++ String.singleton sqChar ++ ")"
  | PyVal.other r => r

/-- Comma-separated `repr`s of list elements. -/
def pyReprList : List PyVal → String
  | [] => ""
  | [x] => pyRepr x
  | x :: xs => pyRepr x ++ ", " ++ pyReprList xs

end

/-- Python `str()` of a `PyVal`: the string itself for strings, `repr`
otherwise. -/
def pyStr : PyVal → String
  | PyVal.str s => s
  | v => pyRepr v

/-- Python `getattr(x, 'text', x)`: the `.text` attribute of a
`TextContent`, the value itself otherwise. -/
def getattrText : PyVal → PyVal
  | PyVal.textContent t => PyVal.str t
  | v => v

/-- Python `json.loads` applied to an arbitrary Python value: raises
`TypeError` on non-strings, `JSONDecodeError` on malformed documents;
both are modelled as `Except.error` with the exception text. -/
def jsonLoadsPy : PyVal → Except String Json
  | PyVal.str s =>
    match jsonParse s with
    | some v => Except.ok v
    | Option.none => Except.error "Expecting value: line 1 column 1 (char 0)"
  | _ => Except.error "the JSON object must be str, bytes or bytearray"

/-- Outcome of the raw MCP transport for one tool call: either an
exception raised while awaiting the result, or an execution whose
`.content` is the given value. -/
inductive RawOutcome where
  | exn (msg : String) : RawOutcome
  | ok (content : PyVal) : RawOutcome

/-- The error envelope built in the `except` clause of
`call_snowflake_mcp_tool`. -/
def mcpErrorEnvelope (toolName msg : String) : Json :=
  Json.obj [("status", Json.str "error"),
            ("message", Json.str
              ("Fehler beim Aufrufen des Snowflake MCP Tools " ++ toolName ++ ": " ++ msg))]

/-- `app.py` lines 196-218, `call_snowflake_mcp_tool`: awaits the tool
call (its result is the `outcome` oracle; `params` is passed to the
transport only), extracts the first content item's text when the content
is a non-empty list/tuple, otherwise decodes `str(content)`; every
exception is converted to the error envelope. -/
def call_snowflake_mcp_tool (toolName : String) (_params : List (String × Json))
    (outcome : RawOutcome) : Json :=
  match outcome with
  | RawOutcome.exn msg => mcpErrorEnvelope toolName msg
  | RawOutcome.ok content =>
    match content with
    | PyVal.list (x :: _) =>
      match jsonLoadsPy (getattrText x) with
      | Except.ok v => v
      | Except.error e => mcpErrorEnvelope toolName e
    | c =>
      match jsonLoadsPy (PyVal.str (pyStr c)) with
      | Except.ok v => v
      | Except.error e => mcpErrorEnvelope toolName e

/-- The string `json.loads` is attempted on for a given transport
outcome: the first content item's text when the content is a non-empty
list whose first item yields a string, `str(content)` otherwise; `none`
when no decode is attempted (exception) or the decode argument is not a
string. -/
def decodeSourceText : RawOutcome → Option String
  | RawOutcome.exn _ => Option.none
  | RawOutcome.ok (PyVal.list (x :: _)) =>
    match getattrText x with
    | PyVal.str s => some s
    | _ => Option.none
  | RawOutcome.ok c => some (pyStr c)

/-! ## Conversation turns and transcript import/export -/

/-- Message role: the app's history holds `HumanMessage`/`AIMessage`
turns only. -/
inductive Role where
  | human : Role
  | ai : Role
deriving DecidableEq

/-- The `type` string of a message, as exposed by its `.type` attribute
and serialized into the transcript. -/
def roleStr : Role → String
  | Role.human => "human"
  | Role.ai => "ai"

/-- One conversation turn; `extras` are the remaining instance attributes
serialized by `serialize_message` (e.g. `additional_kwargs`), with keys
other than `type`/`content`. -/
structure Turn where
  role : Role
  content : String
  extras : List (String × Json)

/-- `app.py` lines 849-854, `serialize_message`: a dict of the message's
`type`, `content` and all other instance attributes not named `type` or
`content`. -/
def serialize_message (t : Turn) : Json :=
  Json.obj ([("type", Json.str (roleStr t.role)), ("content", Json.str t.content)] ++
    t.extras.filter (fun kv => kv.1 ≠ "type" ∧ kv.1 ≠ "content"))

/-- The exported transcript (`messages_json`, line 855) at JSON-value
level; the pretty-printed `json.dumps` text and its `json.load` parse
during import are treated as the identity on this value. -/
def exportHistory (h : List Turn) : List Json :=
  h.map serialize_message

/-- Python `msg.get("type") == t` for a transcript entry. -/
def isType (item : Json) (t : String) : Bool :=
  match jsonGet item "type" with
  | some (Json.str s) => s = t
  | _ => false

/-- Rendering of a parsed JSON value in Python string context (f-string
interpolation, message content fallback). -/
def jsonFStr : Json → String
  | Json.str s => s
  | Json.null => "None"
  | Json.bool b => if b then "True" else "False"
  | Json.num n => toString n
  | v => "object " ++ (match v with | Json.arr _ => "list" | _ => "dict")

/-- `app.py` lines 546-552, one iteration of the chat-import loop: an
entry of type `ai` or `human` is appended with its `content` (default
`""`); any other entry is skipped. -/
def importTurn (item : Json) : Option Turn :=
  if isType item "ai" then
    some ⟨Role.ai, jsonFStr (jsonGetD item "content" (Json.str "")), []⟩
  else if isType item "human" then
    some ⟨Role.human, jsonFStr (jsonGetD item "content" (Json.str "")), []⟩
  else Option.none

/-- `app.py` lines 541-552, chat import: the history is cleared and the
accepted entries are appended in order. -/
def importChat (items : List Json) : List Turn :=
  items.filterMap importTurn

/-! ## Selection state and the Navigator chat step -/

/-- The value of `st.session_state.option_table`: a single table name, or
the list built by the Multi-Table-Selektion branch. -/
inductive TableSel where
  | one (name : String) : TableSel
  | many (names : List String) : TableSel

/-- `app.py` lines 502-514, Multi-Table-Selektion: fewer than 2 selected
display names yields `table_name = []` (with a sidebar warning),
otherwise each display name is looked up in `name_map` (a missing key
would raise, modelled as `none`). -/
def multiTableName (selection : List String) (nameMap : List (String × String)) :
    Option (List String) :=
  if selection.length < 2 then some []
  else selection.mapM (fun n => nameMap.lookup n)

/-- `app.py` line 743, the chat guard: blocked exactly when
`option_table` is a list with fewer than 2 entries. -/
def tableGuardBlocked : TableSel → Bool
  | TableSel.many names => names.length < 2
  | TableSel.one _ => false

/-- What the step renders to the user. -/
inductive Display where
  | infoNotice (msg : String) : Display
  | answerShown (text : String) : Display
  | errorShown (msg : String) : Display
  | successShown (msg : String) : Display
  | nothing : Display

/-- The parameters of the `snowflake_query_rag` tool call issued by the
chat handler (`app.py` lines 765-775). -/
structure RagRequest where
  query : String
  systemPrompt : String
  tableName : TableSel
  model : String
  embeddingModel : String
  k : Nat

/-- Result of one Navigator chat step: the RAG tool call issued (if any),
the conversation history afterwards, what is rendered, and the answer
stored in `st.session_state.answer` (if set). -/
structure ChatOutcome where
  ragCall : Option RagRequest
  history : List Turn
  display : Display
  storedAnswer : Option String

/-- `app.py` lines 748-749: an empty history first receives the fixed
assistant greeting as an AI turn. -/
def greetingIfEmpty (assistant : String) (hist : List Turn) : List Turn :=
  if hist.isEmpty then [⟨Role.ai, assistant, []⟩] else hist

/-- `app.py` line 779, the answer normalization applied on success:
remove every occurrence of `"Assistant: "`, replace newlines by spaces,
strip leading whitespace. -/
def normalizeAnswer (s : String) : String :=
  pyLstrip (pyReplace (pyReplace s "Assistant: " "") "\n" " ")

/-- The answer normalization as the spec words it, for comparison with
`normalizeAnswer`: "strip a literal `\"Assistant: \"` prefix if present;
collapse embedded newlines to spaces". -/
def specNormalizeAnswer (s : String) : String :=
  pyReplace (pyRemovePrefixStr s "Assistant: ") "\n" " "

/-- `app.py` lines 788-793, context conversion: each entry of the
response's `context` list must be a dict (its `content` defaults to `""`,
its `metadata` to an empty dict); a non-list context or a non-dict entry
raises, modelled as `none`. -/
def contextDocs : Json → Option (List (Json × Json))
  | Json.arr items =>
    items.mapM (fun item =>
      match item with
      | Json.obj kvs =>
        some (jsonGetD (Json.obj kvs) "content" (Json.str ""),
              jsonGetD (Json.obj kvs) "metadata" (Json.obj []))
      | _ => Option.none)
  | _ => Option.none

/-- `app.py` lines 742-808, one Navigator chat step, given the active
table selection, the assistant greeting and LLM options, the chat input
(if any), the `snowflake_query_rag` response (consulted only when a call
is issued) and the current history.  `none` models an uncaught Python
exception (non-string `answer`, malformed `context`). -/
def navigatorChat (table : TableSel) (assistant systemPrompt model embModel : String)
    (userInput : Option String) (ragResponse : Json) (hist : List Turn) :
    Option ChatOutcome :=
  if tableGuardBlocked table then
    some ⟨Option.none, hist,
          Display.infoNotice "Bitte wähle mindestens 2 Tabellen für die Multi-Table-Abfrage.",
          Option.none⟩
  else
    let msgs1 := greetingIfEmpty assistant hist
    match userInput with
    | Option.none => some ⟨Option.none, msgs1, Display.nothing, Option.none⟩
    | some q =>
      let req : RagRequest := ⟨q, systemPrompt, table, model, embModel, 8⟩
      if isStatusSuccess ragResponse then
        match jsonGetD ragResponse "answer" (Json.str "Keine Antwort erhalten.") with
        | Json.str a =>
          let ans := normalizeAnswer a
          match contextDocs (jsonGetD ragResponse "context" (Json.arr [])) with
          | some _ =>
            some ⟨some req, msgs1 ++ [⟨Role.human, q, []⟩, ⟨Role.ai, ans, []⟩],
                  Display.answerShown ans, some ans⟩
          | Option.none => Option.none
        | _ => Option.none
      else
        some ⟨some req, msgs1,
              Display.errorShown ("Fehler bei der RAG-Abfrage: " ++
                jsonFStr (jsonGetD ragResponse "message"
                  (Json.str "Ein unbekannter Fehler ist aufgetreten."))),
              Option.none⟩

/-! ## Ingest: vector-store creation response handling -/

/-- `app.py` lines 597-734: the ingest block runs only when no `vector`
flag is set; on a `success` response the flag becomes
`"mcp_vector_store"` and the elapsed time is shown, otherwise the flag
stays unset and the remote message is shown as an error. -/
def ingestVectorStep (prevVector : Option String) (resp : Json) (elapsed : Nat) :
    Option String × Display :=
  match prevVector with
  | some v => (some v, Display.nothing)
  | Option.none =>
    if isStatusSuccess resp then
      (some "mcp_vector_store",
       Display.successShown
         ("Dokumente wurden in " ++ toString elapsed ++ " Sekunden integriert!"))
    else
      (Option.none,
       Display.errorShown
         ("Fehler beim Erstellen des Vektorspeichers: " ++
          jsonFStr (jsonGetD resp "message" Json.null)))

/-! ## New-table name normalization -/

/-- `app.py` lines 484-490: a non-empty entered name is uppercased and
prefixed with `LANGCHAIN_` unless already carrying the prefix; an empty
entry falls back to `LANGCHAIN_TEST`. -/
def normalize_table_name (newDisp : String) : String :=
  if newDisp.isEmpty then "LANGCHAIN_TEST"
  else
    let u := pyUpper newDisp
    if pyStartsWith u "LANGCHAIN_" then u else "LANGCHAIN_" ++ u

/-! ## MinIO utilities (`src/server/minio_utils.py`)

Each function is embedded as the sequence of MinIO-client calls it
performs, with the bucket/object arguments it passes. -/

/-- One call into the MinIO client. -/
inductive MinioOp where
  | listObjectsOp : MinioOp
  | putObjectOp : MinioOp
  | removeObjectOp : MinioOp
  | bucketExistsOp : MinioOp
  | makeBucketOp : MinioOp
deriving DecidableEq

/-- A MinIO client call with the bucket and (when applicable) object
name passed. -/
structure MinioCall where
  op : MinioOp
  bucket : String
  object : Option String

/-- The bucket-name normalization used throughout `minio_utils.py`:
`bucket_name.lower().replace(' ', '-')`. -/
def normalizeBucketName (s : String) : String :=
  pyReplace (pyLower s) " " "-"

/-- `minio_utils.py` lines 152-174, `list_objects`: normalizes the bucket
name, then lists objects in it. -/
def list_objects_calls (bucket : String) : List MinioCall :=
  [⟨MinioOp.listObjectsOp, normalizeBucketName bucket, Option.none⟩]

/-- `minio_utils.py` lines 72-90, `create_bucket`: normalizes its
argument again, checks existence and creates the bucket when absent
(`bucketExists` is the remote answer). -/
def create_bucket_calls (bucketExists : Bool) (bucket : String) : List MinioCall :=
  let b := normalizeBucketName bucket
  ⟨MinioOp.bucketExistsOp, b, Option.none⟩ ::
    (if bucketExists then [] else [⟨MinioOp.makeBucketOp, b, Option.none⟩])

/-- `minio_utils.py` lines 93-127, `upload_files`: normalizes the bucket
name, ensures the bucket exists via `create_bucket`, then uploads each
file under its unmodified basename. -/
def upload_files_calls (bucketExists : Bool) (bucket : String) (filePaths : List String) :
    List MinioCall :=
  let b := normalizeBucketName bucket
  create_bucket_calls bucketExists b ++
    filePaths.map (fun p => ⟨MinioOp.putObjectOp, b, some (pyBasename p)⟩)

/-- `minio_utils.py` lines 177-202, `delete_object_from_bucket`:
normalizes the bucket name, strips a leading `"<bucket>/"` from the object
name if present, and removes the object under the otherwise unmodified
name. -/
def delete_object_calls (bucket object : String) : List MinioCall :=
  let b := normalizeBucketName bucket
  let o := if pyStartsWith object (b ++ "/") then
             String.mk (object.toList.drop (b.length + 1))
           else object
  [⟨MinioOp.removeObjectOp, b, some o⟩]

/-! ## Chunking (ingestion pipeline)

`app.py` lines 695-702 delegate splitting to the external
`RecursiveCharacterTextSplitter(chunk_size=1000, chunk_overlap=100)`. -/

/-- Modelled from the spec: the splitter library
(`RecursiveCharacterTextSplitter`) is not part of this repository; per
the spec the ingestion pipeline splits a document "into fixed-size
overlapping text windows (window = 1000 units, overlap = 100 units)", so
each chunk after the first starts 900 units after the previous one and a
document of at most 1000 units is a single chunk. -/
def splitWindows (t : List Char) : List (List Char) :=
  if t.length ≤ 1000 then [t]
  else t.take 1000 :: splitWindows (t.drop 900)
termination_by t.length
decreasing_by
  simp only [List.length_drop]
  omega

/-- Ceiling division of integers, `b` positive. -/
def ceilDivInt (a b : Int) : Int :=
  -((-a) / b)

/-- The chunk-count formula asserted by the spec: `ceil((L-100)/900)`. -/
def ceilFormula (L : Nat) : Int :=
  ceilDivInt ((L : Int) - 100) 900

/-! ## `snowflake_list_tables` (`src/server/snowflake.py`) -/

/-- One filtered table entry: the raw name and its display name with the
`LANGCHAIN_` prefix removed and uppercased. -/
def tableEntry (n : String) : Json :=
  Json.obj [("name", Json.str n),
            ("display_name", Json.str (pyUpper (pyRemovePrefixStr n "LANGCHAIN_")))]

/-- `snowflake.py` lines 45-76, `snowflake_list_tables`: rows are the
fetched warehouse tables (`row[1]` is the table name, here the second
component); on success the payload keeps exactly the rows whose name
starts with `LANGCHAIN`; any exception yields the error envelope. -/
def snowflake_list_tables (outcome : Except String (List (String × String))) : Json :=
  match outcome with
  | Except.error e =>
    Json.obj [("status", Json.str "error"), ("message", Json.str e)]
  | Except.ok rows =>
    Json.obj [("status", Json.str "success"),
              ("tables", Json.arr
                ((rows.filter (fun r => pyStartsWith r.2 "LANGCHAIN")).map
                  (fun r => tableEntry r.2)))]

/-! ## Helper lemmas -/

/-- The fallback step of `call_snowflake_mcp_tool` (decode a value or
build the error envelope) either yields a `status`-carrying mapping or
the successful parse of a string argument. -/
theorem decodeStep_cases (toolName : String) (pv : PyVal) (res : Json)
    (hres : res = (match jsonLoadsPy pv with
                   | Except.ok v => v
                   | Except.error e => mcpErrorEnvelope toolName e)) :
    hasStatusKey res = true ∨
      ∃ s, pv = PyVal.str s ∧ jsonParse s = some res := by
  cases pv with
  | str s =>
    cases hp : jsonParse s with
    | some v =>
      right
      refine ⟨s, rfl, ?_⟩
      rw [hres]
      simp [jsonLoadsPy, hp]
    | none =>
      left
      rw [hres]
      simp [jsonLoadsPy, hp]
      rfl
  | int n => left; rw [hres]; rfl
  | noneVal => left; rw [hres]; rfl
  | list xs => left; rw [hres]; rfl
  | textContent t => left; rw [hres]; rfl
  | other r => left; rw [hres]; rfl

/-- Fallback branch of `call_snowflake_mcp_tool` (content not a
non-empty list): decode of `str(content)` either succeeds verbatim or
produces the `status`-carrying envelope. -/
theorem fallbackDecode_cases (toolName : String) (params : List (String × Json)) (c : PyVal)
    (hcall : call_snowflake_mcp_tool toolName params (RawOutcome.ok c) =
      (match jsonLoadsPy (PyVal.str (pyStr c)) with
       | Except.ok v => v
       | Except.error e => mcpErrorEnvelope toolName e))
    (hdec : decodeSourceText (RawOutcome.ok c) = some (pyStr c)) :
    hasStatusKey (call_snowflake_mcp_tool toolName params (RawOutcome.ok c)) = true ∨
    ∃ s, decodeSourceText (RawOutcome.ok c) = some s ∧
      jsonParse s = some (call_snowflake_mcp_tool toolName params (RawOutcome.ok c)) := by
  rcases decodeStep_cases toolName (PyVal.str (pyStr c)) _ hcall with h | ⟨s, hs, hp⟩
  · exact Or.inl h
  · right
    injection hs with h2
    exact ⟨s, by rw [hdec, h2], hp⟩

/-- Without the greeting position occupied, a non-empty history passes
through `greetingIfEmpty` unchanged. -/
theorem greetingIfEmpty_ne_nil (assistant : String) (hist : List Turn)
    (h : hist ≠ []) : greetingIfEmpty assistant hist = hist := by
  cases hist with
  | nil => exact absurd rfl h
  | cons t ts => rfl

/-- A response whose `status` entry is the string `"success"` satisfies
the success test. -/
theorem isStatusSuccess_of_get (resp : Json)
    (h : jsonGet resp "status" = some (Json.str "success")) :
    isStatusSuccess resp = true := by
  simp [isStatusSuccess, h]

/-- A response whose `status` entry is a string other than `"success"`
fails the success test. -/
theorem isStatusSuccess_ne (resp : Json) (s : String)
    (h : jsonGet resp "status" = some (Json.str s)) (hs : s ≠ "success") :
    isStatusSuccess resp = false := by
  simp [isStatusSuccess, h, hs]

/-- Chunk count of the sliding-window splitter, in closed form. -/
theorem splitWindows_length (t : List Char) :
    ((splitWindows t).length : Int) = max 1 (ceilFormula t.length) := by
  by_cases h : t.length ≤ 1000
  · rw [splitWindows]
    simp only [h, if_true, List.length_singleton]
    unfold ceilFormula ceilDivInt
    omega
  · rw [splitWindows]
    simp only [h, if_false, List.length_cons]
    have ih := splitWindows_length (t.drop 900)
    rw [List.length_drop] at ih
    unfold ceilFormula ceilDivInt at ih ⊢
    omega
termination_by t.length
decreasing_by
  simp only [List.length_drop]
  omega

/-- Filtering rows by a predicate on the name component and then taking
the name commutes with first projecting the names. -/
theorem filter_rows_map_snd (rows : List (String × String)) :
    (rows.filter (fun r => pyStartsWith r.2 "LANGCHAIN")).map (fun r => tableEntry r.2) =
      ((rows.map Prod.snd).filter (fun n => pyStartsWith n "LANGCHAIN")).map tableEntry := by
  induction rows with
  | nil => rfl
  | cons r rs ih =>
    by_cases h : pyStartsWith r.2 "LANGCHAIN" = true <;>
      simp [List.filter_cons, h, ih]

/-! ## Claims -/

/-- C1, counterexample: the claim promises a mapping with a `status` key
for every raw transport outcome, including an empty content list; but on
an empty content list `call_snowflake_mcp_tool` falls through to
`json.loads(str(content))` = `json.loads("[]")` and returns the JSON
array `[]`, which is not a mapping and has no `status` key. -/
theorem c1_counterexample :
    call_snowflake_mcp_tool "snowflake_list_tables" [] (RawOutcome.ok (PyVal.list [])) =
      Json.arr [] ∧
    hasStatusKey (Json.arr []) = false :=
  ⟨rfl, rfl⟩

/-- C1 (amended): for every tool name, parameter mapping and raw
transport outcome, `call_snowflake_mcp_tool` never raises (it is total
into `Json`), and its result either is a mapping carrying a `status` key
(in particular the `status: error` envelope on a transport exception or
decode failure) or is exactly the successfully decoded JSON text selected
from the outcome — which, as the counterexample shows, need not be a
mapping. -/
theorem c1_theorem (toolName : String) (params : List (String × Json)) (o : RawOutcome) :
    hasStatusKey (call_snowflake_mcp_tool toolName params o) = true ∨
    ∃ s, decodeSourceText o = some s ∧
      jsonParse s = some (call_snowflake_mcp_tool toolName params o) := by
  cases o with
  | exn msg => exact Or.inl rfl
  | ok content =>
    rcases content with s | n | _ | (_ | ⟨x, xs⟩) | t | r
    case ok.list.cons =>
      rcases decodeStep_cases toolName (getattrText x)
          (call_snowflake_mcp_tool toolName params (RawOutcome.ok (PyVal.list (x :: xs))))
          (by cases x <;> rfl) with h | ⟨s, hs, hp⟩
      · exact Or.inl h
      · right
        refine ⟨s, ?_, hp⟩
        simp [decodeSourceText, hs]
    all_goals exact fallbackDecode_cases toolName params _ rfl rfl

/-- C2: with the active selection in Multi mode and fewer than 2 selected
collections, the sidebar produces `table_name = []` and the chat step is
a no-op: no RAG tool call is issued, the Conversation History is left
unchanged, and an informational notice (not an error) is rendered. -/
theorem c2_theorem (selection : List String) (nameMap : List (String × String))
    (names : List String) (assistant sys model emb : String) (userInput : Option String)
    (resp : Json) (hist : List Turn)
    (hsel : selection.length < 2) (hn : names.length < 2) :
    multiTableName selection nameMap = some [] ∧
    navigatorChat (TableSel.many names) assistant sys model emb userInput resp hist =
      some ⟨Option.none, hist,
            Display.infoNotice "Bitte wähle mindestens 2 Tabellen für die Multi-Table-Abfrage.",
            Option.none⟩ := by
  constructor
  · simp [multiTableName, hsel]
  · have hg : tableGuardBlocked (TableSel.many names) = true := by
      simp [tableGuardBlocked]
      omega
    simp [navigatorChat, hg]

/-- C2 witness: the empty Multi selection concretely yields the no-op
outcome with the notice. -/
theorem c2_witness :
    multiTableName [] [("A", "LANGCHAIN_A")] = some [] ∧
    navigatorChat (TableSel.many []) "Hallo!" "sys" "mistral-large" "multilingual-e5-large"
        (some "Frage?") (Json.obj []) [⟨Role.ai, "Hallo!", []⟩] =
      some ⟨Option.none, [⟨Role.ai, "Hallo!", []⟩],
            Display.infoNotice "Bitte wähle mindestens 2 Tabellen für die Multi-Table-Abfrage.",
            Option.none⟩ :=
  c2_theorem [] [("A", "LANGCHAIN_A")] [] "Hallo!" "sys" "mistral-large"
    "multilingual-e5-large" (some "Frage?") (Json.obj []) [⟨Role.ai, "Hallo!", []⟩]
    (by decide) (by decide)

/-- C3, counterexample: the claim describes the stored answer as the
remote answer with a literal `"Assistant: "` prefix stripped if present;
but the code removes every occurrence of `"Assistant: "` (and strips
leading whitespace), so the success answer `"He said Assistant: yes"` is
stored as `"He said yes"` while the claim's prefix-strip leaves it
unchanged. -/
theorem c3_counterexample :
    navigatorChat (TableSel.one "LANGCHAIN_TEST") "Wie kann ich helfen?" "sys"
        "mistral-large" "multilingual-e5-large" (some "Was sagte er?")
        (Json.obj [("status", Json.str "success"),
                   ("answer", Json.str "He said Assistant: yes"),
                   ("context", Json.arr [])])
        [⟨Role.ai, "Wie kann ich helfen?", []⟩] =
      some ⟨some ⟨"Was sagte er?", "sys", TableSel.one "LANGCHAIN_TEST",
                  "mistral-large", "multilingual-e5-large", 8⟩,
            [⟨Role.ai, "Wie kann ich helfen?", []⟩, ⟨Role.human, "Was sagte er?", []⟩,
             ⟨Role.ai, "He said yes", []⟩],
            Display.answerShown "He said yes", some "He said yes"⟩ ∧
    specNormalizeAnswer "He said Assistant: yes" = "He said Assistant: yes" ∧
    ("He said yes" : String) ≠ "He said Assistant: yes" :=
  ⟨rfl, rfl, by decide⟩

/-- C3 (amended): for every success response whose `answer` field is a
string `a` (and whose `context` converts without error), the stored
answer is `a` with every occurrence of `"Assistant: "` removed, newlines
replaced by spaces and leading whitespace stripped, and exactly two new
turns are appended to the (post-greeting) Conversation History in order:
the human question first, then the AI answer.  The claim's concrete
scenario is unaffected: `"Assistant: Paris\n is the capital"` is stored
as `"Paris  is the capital"` (see the witness). -/
theorem c3_theorem (table : TableSel) (assistant sys model emb q a : String)
    (resp : Json) (hist : List Turn) (ds : List (Json × Json))
    (hguard : tableGuardBlocked table = false)
    (hne : hist ≠ [])
    (hstatus : jsonGet resp "status" = some (Json.str "success"))
    (hanswer : jsonGet resp "answer" = some (Json.str a))
    (hctx : contextDocs (jsonGetD resp "context" (Json.arr [])) = some ds) :
    navigatorChat table assistant sys model emb (some q) resp hist =
      some ⟨some ⟨q, sys, table, model, emb, 8⟩,
            hist ++ [⟨Role.human, q, []⟩, ⟨Role.ai, normalizeAnswer a, []⟩],
            Display.answerShown (normalizeAnswer a), some (normalizeAnswer a)⟩ := by
  have hss := isStatusSuccess_of_get resp hstatus
  have hmsgs := greetingIfEmpty_ne_nil assistant hist hne
  have hctx2 : contextDocs ((jsonGet resp "context").getD (Json.arr [])) = some ds := hctx
  simp [navigatorChat, hguard, hss, hmsgs, jsonGetD, hanswer, hctx2]

/-- C3 witness: the spec scenario — a success response with answer
`"Assistant: Paris\n is the capital"` and empty context — stores
`"Paris  is the capital"` and appends the human question and the AI
answer, in that order. -/
theorem c3_witness :
    navigatorChat (TableSel.one "LANGCHAIN_TEST") "Hallo!" "sys" "mistral-large"
        "multilingual-e5-large" (some "Wie heißt die Hauptstadt von Frankreich?")
        (Json.obj [("status", Json.str "success"),
                   ("answer", Json.str "Assistant: Paris\n is the capital"),
                   ("context", Json.arr [])])
        [⟨Role.ai, "Hallo!", []⟩] =
      some ⟨some ⟨"Wie heißt die Hauptstadt von Frankreich?", "sys",
                  TableSel.one "LANGCHAIN_TEST", "mistral-large", "multilingual-e5-large", 8⟩,
            [⟨Role.ai, "Hallo!", []⟩,
             ⟨Role.human, "Wie heißt die Hauptstadt von Frankreich?", []⟩,
             ⟨Role.ai, "Paris  is the capital", []⟩],
            Display.answerShown "Paris  is the capital", some "Paris  is the capital"⟩ :=
  c3_theorem (TableSel.one "LANGCHAIN_TEST") "Hallo!" "sys" "mistral-large"
    "multilingual-e5-large" "Wie heißt die Hauptstadt von Frankreich?"
    "Assistant: Paris\n is the capital" _ _ [] rfl (List.cons_ne_nil _ _) rfl rfl rfl

/-- C4: for every RAG response whose `status` is `"error"` and whose
`message` is a string `m` (e.g. `"timeout"`), no new turns are appended
to the (post-greeting) Conversation History, nothing is stored, and the
remote-supplied message `m` is surfaced to the user in the rendered
error. -/
theorem c4_theorem (table : TableSel) (assistant sys model emb q m : String)
    (resp : Json) (hist : List Turn)
    (hguard : tableGuardBlocked table = false)
    (hne : hist ≠ [])
    (hstatus : jsonGet resp "status" = some (Json.str "error"))
    (hmsg : jsonGet resp "message" = some (Json.str m)) :
    navigatorChat table assistant sys model emb (some q) resp hist =
      some ⟨some ⟨q, sys, table, model, emb, 8⟩, hist,
            Display.errorShown ("Fehler bei der RAG-Abfrage: " ++ m), Option.none⟩ := by
  have hss := isStatusSuccess_ne resp "error" hstatus (by decide)
  have hmsgs := greetingIfEmpty_ne_nil assistant hist hne
  simp [navigatorChat, hguard, hss, hmsgs, jsonGetD, hmsg, jsonFStr]

/-- C4 witness: the spec scenario — `{"status":"error","message":
"timeout"}` — leaves the history unchanged and surfaces `"timeout"`. -/
theorem c4_witness :
    navigatorChat (TableSel.one "LANGCHAIN_TEST") "Hallo!" "sys" "mistral-large"
        "multilingual-e5-large" (some "Frage?")
        (Json.obj [("status", Json.str "error"), ("message", Json.str "timeout")])
        [⟨Role.ai, "Hallo!", []⟩] =
      some ⟨some ⟨"Frage?", "sys", TableSel.one "LANGCHAIN_TEST",
                  "mistral-large", "multilingual-e5-large", 8⟩,
            [⟨Role.ai, "Hallo!", []⟩],
            Display.errorShown "Fehler bei der RAG-Abfrage: timeout", Option.none⟩ :=
  c4_theorem (TableSel.one "LANGCHAIN_TEST") "Hallo!" "sys" "mistral-large"
    "multilingual-e5-large" "Frage?" "timeout" _ _ rfl (List.cons_ne_nil _ _) rfl rfl

/-- C5: starting from an unset `vector` flag, a non-success
vector-store-creation response leaves the flag unset and surfaces the
remote message as an error (state stays unconnected); a success response
sets the flag to `"mcp_vector_store"` and shows the elapsed time. -/
theorem c5_theorem (resp : Json) (elapsed : Nat) :
    (isStatusSuccess resp = false →
      ingestVectorStep Option.none resp elapsed =
        (Option.none,
         Display.errorShown ("Fehler beim Erstellen des Vektorspeichers: " ++
           jsonFStr (jsonGetD resp "message" Json.null)))) ∧
    (isStatusSuccess resp = true →
      ingestVectorStep Option.none resp elapsed =
        (some "mcp_vector_store",
         Display.successShown
           ("Dokumente wurden in " ++ toString elapsed ++ " Sekunden integriert!"))) := by
  constructor <;> intro h <;> simp [ingestVectorStep, h]

/-- C5 witness: an error response with message `"timeout"` leaves the
flag unset and shows the message; a success response sets the flag and
shows the elapsed time. -/
theorem c5_witness :
    ingestVectorStep Option.none
        (Json.obj [("status", Json.str "error"), ("message", Json.str "timeout")]) 7 =
      (Option.none, Display.errorShown "Fehler beim Erstellen des Vektorspeichers: timeout") ∧
    ingestVectorStep Option.none (Json.obj [("status", Json.str "success")]) 7 =
      (some "mcp_vector_store",
       Display.successShown "Dokumente wurden in 7 Sekunden integriert!") :=
  ⟨( c5_theorem (Json.obj [("status", Json.str "error"), ("message", Json.str "timeout")]) 7).1
      rfl,
   ( c5_theorem (Json.obj [("status", Json.str "success")]) 7).2 rfl⟩

/-- C6, counterexample: at document length `L = 100` the splitter
produces 1 chunk while the claimed formula `ceil((L-100)/900)` evaluates
to 0; the claim's universal formula therefore fails (it also conflicts
with the claim's own boundary case `L ≤ 1000 → 1 chunk`). -/
theorem c6_counterexample :
    ((splitWindows (List.replicate 100 'a')).length : Int) ≠ ceilFormula 100 ∧
    (splitWindows (List.replicate 100 'a')).length = 1 ∧
    ceilFormula 100 = 0 := by
  have h1 : (splitWindows (List.replicate 100 'a')).length = 1 := by
    rw [splitWindows]
    simp
  refine ⟨?_, h1, by decide⟩
  rw [h1]
  decide

/-- C6 (amended): for every document, the number of chunks produced by
the window-1000/overlap-100 splitter equals `max 1 (ceil((L-100)/900))`
— i.e. the claimed formula `ceil((L-100)/900)` for every `L > 100`, and
exactly 1 chunk whenever `L ≤ 1000` (including all `L ≤ 100`, where the
claimed formula gives 0). -/
theorem c6_theorem (t : List Char) :
    ((splitWindows t).length : Int) = max 1 (ceilFormula t.length) ∧
    (100 < t.length → ((splitWindows t).length : Int) = ceilFormula t.length) ∧
    (t.length ≤ 1000 → (splitWindows t).length = 1) := by
  have hmain := splitWindows_length t
  refine ⟨hmain, ?_, ?_⟩
  · intro h
    rw [hmain]
    unfold ceilFormula ceilDivInt
    omega
  · intro h
    rw [splitWindows]
    simp [h]

/-- C6 witness: a 1500-unit document yields `ceil(1400/900) = 2` chunks,
and a 500-unit document yields exactly 1 chunk. -/
theorem c6_witness :
    ((splitWindows (List.replicate 1500 'a')).length : Int) = ceilFormula 1500 ∧
    (splitWindows (List.replicate 500 'a')).length = 1 :=
  ⟨by
    have h := ( c6_theorem (List.replicate 1500 'a')).2.1
      (by rw [List.length_replicate]; omega)
    rw [List.length_replicate] at h
    exact h,
   ( c6_theorem (List.replicate 500 'a')).2.2 (by rw [List.length_replicate]; omega)⟩

/-- C7: new-collection names are uppercased and prefixed with
`LANGCHAIN_` unless the uppercased name already starts with
`LANGCHAIN_`; `"test"` becomes `"LANGCHAIN_TEST"`, `"LANGCHAIN_FOO"`
stays `"LANGCHAIN_FOO"` (never double-prefixed), and empty input falls
back to `"LANGCHAIN_TEST"`. -/
theorem c7_theorem :
    (∀ s : String, s.isEmpty = false →
      normalize_table_name s =
        (if pyStartsWith (pyUpper s) "LANGCHAIN_" then pyUpper s
         else "LANGCHAIN_" ++ pyUpper s)) ∧
    normalize_table_name "" = "LANGCHAIN_TEST" ∧
    normalize_table_name "test" = "LANGCHAIN_TEST" ∧
    normalize_table_name "LANGCHAIN_FOO" = "LANGCHAIN_FOO" := by
  refine ⟨?_, rfl, rfl, rfl⟩
  intro s hs
  simp [normalize_table_name, hs]

/-- C7 witness: the normalization rule applied at `"abc"` yields
`"LANGCHAIN_ABC"`. -/
theorem c7_witness : normalize_table_name "abc" = "LANGCHAIN_ABC" :=
  c7_theorem.1 "abc" rfl

/-- C8: exporting a Conversation History of human/ai turns to the
transcript format and re-importing it reproduces an equal ordered
sequence of (type, content) pairs (extra serialized attributes are
dropped by the import, which reads only `type` and `content`). -/
theorem c8_theorem (h : List Turn) :
    (importChat (exportHistory h)).map (fun t => (roleStr t.role, t.content)) =
      h.map (fun t => (roleStr t.role, t.content)) := by
  induction h with
  | nil => rfl
  | cons t ts ih =>
    obtain ⟨r, c, extras⟩ := t
    cases r <;>
      simpa [exportHistory, importChat, importTurn, serialize_message, isType,
             jsonGet, lookupStr, jsonGetD, jsonFStr, roleStr] using ih

/-- C9, counterexample: the claim says object names are lowercased and
space-hyphenated before every call; but `delete_object_from_bucket`
passes the object name through unchanged (only the bucket name is
normalized), so deleting `"My File.PDF"` from bucket `"docs"` calls the
client with the unnormalized object name. -/
theorem c9_counterexample :
    delete_object_calls "docs" "My File.PDF" =
      [⟨MinioOp.removeObjectOp, "docs", some "My File.PDF"⟩] ∧
    normalizeBucketName "My File.PDF" = "my-file.pdf" ∧
    ("My File.PDF" : String) ≠ "my-file.pdf" :=
  ⟨rfl, rfl, by decide⟩

/-- C9 (amended): before every blob-store call of `list_objects`,
`upload_files` and `delete_object_from_bucket`, the *bucket* name is
normalized by lowercasing and replacing spaces with hyphens (inside
`upload_files`, `create_bucket` re-applies the normalization to the
already-normalized name); *object* names are not normalized:
`upload_files` uses each file's unmodified basename and
`delete_object_from_bucket` passes the object name unchanged except for
stripping a leading `"<bucket>/"` prefix. -/
theorem c9_theorem (bucket object : String) (bucketExists : Bool) (files : List String) :
    (∀ c ∈ list_objects_calls bucket,
      c.bucket = normalizeBucketName bucket ∧ c.object = Option.none) ∧
    (∀ c ∈ upload_files_calls bucketExists bucket files,
      (c.bucket = normalizeBucketName bucket ∨
       c.bucket = normalizeBucketName (normalizeBucketName bucket)) ∧
      (c.op = MinioOp.putObjectOp → ∃ p ∈ files, c.object = some (pyBasename p))) ∧
    (∀ c ∈ delete_object_calls bucket object,
      c.bucket = normalizeBucketName bucket ∧
      (c.object = some object ∨
       c.object = some (String.mk
         (object.toList.drop ((normalizeBucketName bucket).length + 1))))) := by
  refine ⟨?_, ?_, ?_⟩
  · intro c hc
    simp [list_objects_calls] at hc
    subst hc
    exact ⟨rfl, rfl⟩
  · intro c hc
    simp only [upload_files_calls, create_bucket_calls, List.mem_append, List.mem_cons,
               List.mem_map] at hc
    rcases hc with (hc | hc) | ⟨p, hp, hc⟩
    · subst hc
      exact ⟨Or.inr rfl, fun hop => by simp at hop⟩
    · rcases bucketExists with _ | _
      · simp at hc
        subst hc
        exact ⟨Or.inr rfl, fun hop => by simp at hop⟩
      · simp at hc
    · subst hc
      exact ⟨Or.inl rfl, fun _ => ⟨p, hp, rfl⟩⟩
  · intro c hc
    by_cases h : pyStartsWith object (normalizeBucketName bucket ++ "/") = true
    · simp only [delete_object_calls, h, if_true, List.mem_singleton] at hc
      subst hc
      exact ⟨rfl, Or.inr rfl⟩
    · simp only [delete_object_calls, h, if_false, List.mem_singleton] at hc
      subst hc
      exact ⟨rfl, Or.inl rfl⟩

/-- C9 witness: deleting `"a.pdf"` from bucket `"My Docs"` issues one
client call against the normalized bucket name with the object name
passed through. -/
theorem c9_witness :
    (⟨MinioOp.removeObjectOp, "my-docs", some "a.pdf"⟩ : MinioCall).bucket =
      normalizeBucketName "My Docs" ∧
    ((⟨MinioOp.removeObjectOp, "my-docs", some "a.pdf"⟩ : MinioCall).object =
       some "a.pdf" ∨
     (⟨MinioOp.removeObjectOp, "my-docs", some "a.pdf"⟩ : MinioCall).object =
       some (String.mk ("a.pdf".toList.drop ((normalizeBucketName "My Docs").length + 1)))) :=
  ( c9_theorem "My Docs" "a.pdf" true []).2.2
    ⟨MinioOp.removeObjectOp, "my-docs", some "a.pdf"⟩ (List.Mem.head _)

/-- C10: the success payload of `snowflake_list_tables` lists exactly the
fetched warehouse table names that start with `LANGCHAIN`, each paired
with a `display_name` equal to the name with the `LANGCHAIN_` prefix
removed and uppercased; every entry of the payload stems from a fetched
name with the `LANGCHAIN` prefix, so a table without it never appears. -/
theorem c10_theorem (rows : List (String × String)) :
    jsonGet (snowflake_list_tables (Except.ok rows)) "tables" =
      some (Json.arr
        (((rows.map Prod.snd).filter (fun n => pyStartsWith n "LANGCHAIN")).map tableEntry)) ∧
    ∀ j ∈ ((rows.map Prod.snd).filter (fun n => pyStartsWith n "LANGCHAIN")).map tableEntry,
      ∃ n, n ∈ rows.map Prod.snd ∧ pyStartsWith n "LANGCHAIN" = true ∧ j = tableEntry n := by
  constructor
  · simp [snowflake_list_tables, jsonGet, lookupStr, filter_rows_map_snd]
  · intro j hj
    obtain ⟨n, hnf, rfl⟩ := List.mem_map.mp hj
    obtain ⟨hn, hpre⟩ := List.mem_filter.mp hnf
    exact ⟨n, hn, hpre, rfl⟩

/-- C10 witness: with fetched tables `LANGCHAIN_A` and `OTHER`, the
payload contains exactly the `LANGCHAIN_A` entry (display name `A`), and
that entry stems from a `LANGCHAIN`-prefixed fetched name. -/
theorem c10_witness :
    jsonGet (snowflake_list_tables (Except.ok [("r1", "LANGCHAIN_A"), ("r2", "OTHER")]))
        "tables" = some (Json.arr [tableEntry "LANGCHAIN_A"]) ∧
    ∃ n, n ∈ ([("r1", "LANGCHAIN_A"), ("r2", "OTHER")].map Prod.snd) ∧
      pyStartsWith n "LANGCHAIN" = true ∧ tableEntry "LANGCHAIN_A" = tableEntry n :=
  ⟨( c10_theorem [("r1", "LANGCHAIN_A"), ("r2", "OTHER")]).1,
   ( c10_theorem [("r1", "LANGCHAIN_A"), ("r2", "OTHER")]).2
     (tableEntry "LANGCHAIN_A") (List.Mem.head _)⟩

end BenBox
